import Mathlib

/-!
Verification development for the portfolio-dashboard data-acquisition
pipeline (`nav_update_scheduler.py` and `src/get_indian_mutual_funds.py`).

The Python code is shallowly embedded: pure parsing logic becomes Lean
functions over lists and strings, the SQLite cache becomes an explicit
table state (a list of rows), HTTP traffic becomes an oracle mapping the
attempt index to an outcome, and JSON (de)serialization of the MarketData
dataclass is modelled structurally (a round trip through json.dumps and
json.loads is the identity on the dictionary produced by to_dict).

Two facts about the module dominate its executed behaviour and are part
of the embedding.  First, nav_update_scheduler.py never imports
aiosqlite, yet every DataCache method's first statement is
`async with aiosqlite.connect(...)`: each cache call raises NameError
before any database work, so the SQL semantics the class declares is
unreachable.  Name resolution of aiosqlite against the module's import
list is modelled explicitly, and each affected operation comes in two
forms: the declared body (the SQL that would run) and the executed
form (which raises).  Second, fetch_url carries the decorator
ratelimit.limits(calls=1, period=RATE_LIMIT) with the default
raise_on_limit=True and no sleep_and_retry: a call arriving when the
per-period budget is exhausted raises RateLimitException, which
backoff.on_exception (retrying only aiohttp.ClientError) passes through
to the caller.  Whether a slot is free at a given attempt is a timing
fact, abstracted as an oracle.
-/

set_option autoImplicit false

namespace Portfolio

/-! ## Configuration constants (`Config`, nav_update_scheduler.py lines 37-41) -/

namespace Config

def RETRY_ATTEMPTS : Nat := 3

def RATE_LIMIT : Nat := 2

end Config

/-! ## Fetch layer (`DataFetcher.fetch_url`, nav_update_scheduler.py lines 270-295)

One HTTP attempt has four possible outcomes, mirroring the exception
clauses of fetch_url's try block: a 2xx body; an aiohttp.ClientError
(covering network errors and the ClientResponseError raised by
response.raise_for_status on any 4xx or 5xx); an asyncio.TimeoutError;
or any other exception.  -/

inductive HttpOutcome where
  | success (body : String)
  | clientError
  | timeout
  | otherError
deriving DecidableEq

/-- Result of calling a Python function: it either returns a value or
raises.  We track whether the raised exception is an aiohttp.ClientError
(the only class the backoff decorator retries) or the RateLimitException
raised by ratelimit.limits when the call budget is exhausted; any other
exception class is collapsed into raisedOther. -/
inductive PyResult (α : Type) where
  | ok (a : α)
  | raisedClientError
  | raisedRateLimit
  | raisedOther
deriving DecidableEq

/-- The body of DataFetcher.fetch_url (lines 280-295): one GET attempt
inside a try block whose except clauses catch aiohttp.ClientError,
asyncio.TimeoutError and Exception, each returning None.  The body
therefore never lets an exception escape: every failure outcome maps to
an ordinary return of None. -/
def fetch_url_body (o : HttpOutcome) : PyResult (Option String) :=
  match o with
  | .success b => .ok (some b)
  | .clientError => .ok none
  | .timeout => .ok none
  | .otherError => .ok none

/-- Semantics of the backoff.on_exception(backoff.expo, aiohttp.ClientError,
max_tries=N) decorator (lines 270-273): call the wrapped function; if it
raises aiohttp.ClientError and attempts remain, wait (the backoff delay is
not modelled — only the attempt count matters here) and call it again; any
other result (a normal return, or an exception of a different class) is
passed through at once.  After the last allowed attempt the exception is
re-raised to the caller.  Returns the final result together with the
number of attempts actually made. -/
def backoffRun {α : Type} (f : Nat → PyResult α) : Nat → Nat → PyResult α × Nat
  | 0, _ => (.raisedOther, 0)
  | Nat.succ n, i =>
    match f i with
    | .raisedClientError =>
      if n = 0 then (.raisedClientError, 1)
      else
        let r := backoffRun f n (i + 1)
        (r.1, r.2 + 1)
    | res => (res, 1)

/-- DataFetcher.fetch_url as decorated, in the case that every attempt
is granted a rate-limit slot (with calls=1 per period, an isolated call
always is — in particular the single call of the permanently-transient
scenario): the backoff retry wrapper around the exception-swallowing
body, with max_tries = Config.RETRY_ATTEMPTS.  The oracle gives the
outcome of the underlying HTTP request on each attempt.  Result: the
value returned (or exception propagated) to the caller, and the number
of attempts made.  fetch_url_rl below is the full decorated function
including the ratelimit wrapper; fetch_url is its all-slots-free
specialization (fetch_url_rl_all_slots_free). -/
def fetch_url (oracle : Nat → HttpOutcome) : PyResult (Option String) × Nat :=
  backoffRun (fun i => fetch_url_body (oracle i)) Config.RETRY_ATTEMPTS 0

/-- The ratelimit.limits(calls=1, period=Config.RATE_LIMIT) decorator
(line 274) with its default raise_on_limit=True and no sleep_and_retry:
if the per-period call budget has a free slot the wrapped function
runs; otherwise RateLimitException is raised before any HTTP request is
issued.  Slot availability at a given attempt is a timing fact,
supplied as an oracle. -/
def ratelimit_limits {α : Type} (slotFree : Nat → Bool) (f : Nat → PyResult α)
    (i : Nat) : PyResult α :=
  if slotFree i then f i else .raisedRateLimit

/-- DataFetcher.fetch_url with its full decorator stack (lines 270-274):
backoff.on_exception over ratelimit.limits over the body.  backoff
retries only aiohttp.ClientError, so a RateLimitException raised by the
inner wrapper propagates to the caller at once. -/
def fetch_url_rl (slotFree : Nat → Bool) (oracle : Nat → HttpOutcome) :
    PyResult (Option String) × Nat :=
  backoffRun (ratelimit_limits slotFree (fun i => fetch_url_body (oracle i)))
    Config.RETRY_ATTEMPTS 0

/-! ## MarketData and the SQLite cache
(`MarketData`, `DataCache`, nav_update_scheduler.py lines 94-175) -/

/-- The MarketData dataclass (lines 94-100).  The timestamp is modelled
by its ISO-8601 string (datetime.fromisoformat composed with
datetime.isoformat is the identity, and SQLite orders the TEXT timestamp
column lexicographically, which on ISO strings is chronological order).
metadata defaults to None in the dataclass, modelled as an Option. -/
structure MarketData where
  timestamp : String
  value : Rat
  source : String
  metadata : Option (List (String × String))
deriving DecidableEq

/-- The dictionary produced by MarketData.to_dict (lines 102-109), which
is what json.dumps serializes into the cache's data column.  to_dict
replaces an absent (None) metadata with an empty mapping. -/
structure MDDict where
  timestamp : String
  value : Rat
  source : String
  metadata : List (String × String)
deriving DecidableEq

def MarketData.to_dict (m : MarketData) : MDDict :=
  { timestamp := m.timestamp
    value := m.value
    source := m.source
    metadata := m.metadata.getD [] }

/-- One row of the market_data table (initialize_db, lines 121-135):
data_type, timestamp, and the JSON-serialized MarketData dictionary.
The autoincrement id column is a surrogate never read by any query in
the program and is not modelled. -/
structure Row where
  dataType : String
  timestamp : String
  data : MDDict
deriving DecidableEq

namespace DataCache

/-- DataCache.set (lines 137-151): INSERT OR REPLACE under the
UNIQUE(data_type, timestamp) ON CONFLICT REPLACE constraint — any
existing row with the same composite key is replaced by the new row.
The ttl_hours parameter is accepted (default 24 in the source) but the
cleanup call that would use it is commented out, so it does not appear
in the resulting state. -/
def set (tbl : List Row) (dataType : String) (m : MarketData) (ttlHours : Nat) : List Row :=
  (tbl.filter fun r => !(r.dataType == dataType && r.timestamp == m.timestamp))
    ++ [{ dataType := dataType, timestamp := m.timestamp, data := m.to_dict }]

/-- Strict lexicographic comparison of character lists by codepoint:
SQLite's default (binary) collation on the TEXT timestamp column, which
on ISO-8601 strings coincides with chronological order. -/
def charListLt : List Char → List Char → Bool
  | _, [] => false
  | [], _ :: _ => true
  | a :: as, b :: bs =>
    if a.toNat < b.toNat then true
    else if b.toNat < a.toNat then false
    else charListLt as bs

/-- Accumulator step realizing ORDER BY timestamp DESC LIMIT 1: keep the
row seen so far with the larger timestamp. -/
def pickLater (acc : Option Row) (r : Row) : Option Row :=
  match acc with
  | none => some r
  | some a => if charListLt a.timestamp.data r.timestamp.data then some r else some a

/-- The SELECT of DataCache.get: rows of the series ordered by timestamp
descending, limit 1 — i.e. a row of maximal timestamp. -/
def latestRow (tbl : List Row) (dataType : String) : Option Row :=
  (tbl.filter fun r => r.dataType == dataType).foldl pickLater none

/-- DataCache.get (lines 154-175): deserialize the most recent row's
data column back into a MarketData.  metadata is read with
data.get("metadata"); every stored dictionary carries the key (to_dict
always emits it), so the read yields the stored mapping, never None. -/
def get (tbl : List Row) (dataType : String) : Option MarketData :=
  match latestRow tbl dataType with
  | none => none
  | some r =>
    some { timestamp := r.data.timestamp
           value := r.data.value
           source := r.data.source
           metadata := some r.data.metadata }

end DataCache

/-! ## Module name resolution for aiosqlite

The import statements of nav_update_scheduler.py (lines 1-19) bind the
following top-level names — and no others.  aiosqlite is not among
them, although DataCache.initialize_db, DataCache.set and DataCache.get
each begin with `async with aiosqlite.connect(...)` (lines 123, 143,
159): every call to a cache method raises NameError at its first
statement, before any database work. -/

def navModuleImports : List String :=
  ["asyncio", "aiohttp", "pd", "np", "datetime", "timedelta", "os", "logging",
   "BeautifulSoup", "re", "shutil", "Dict", "List", "Optional", "Any", "Callable",
   "dataclass", "backoff", "ratelimit", "json", "gspread", "Credentials"]

def aiosqliteImported : Bool := navModuleImports.contains ("aiosqlite")

/-- Outcome of executing a Python statement or call: a normal return,
or a NameError escaping it. -/
inductive PyOutcome (α : Type) where
  | returns (a : α)
  | raisesNameError
deriving DecidableEq

/-- Executing any `async with aiosqlite.connect(...)` statement in this
module: the name aiosqlite is resolved against the module namespace
first; since it was never imported, the statement raises NameError
before connecting. -/
def aiosqliteCall : PyOutcome Unit :=
  if aiosqliteImported then .returns () else .raisesNameError

namespace DataCache

/-- DataCache.set as the program executes it: the first statement of
its body (line 143) resolves aiosqlite and raises NameError, so the
declared INSERT OR REPLACE (the `set` model above) is unreachable. -/
def set_run (tbl : List Row) (dataType : String) (m : MarketData) (ttlHours : Nat) :
    PyOutcome (List Row) :=
  match aiosqliteCall with
  | .returns _ => .returns (set tbl dataType m ttlHours)
  | .raisesNameError => .raisesNameError

/-- DataCache.get as the program executes it: the first statement of
its body (line 159) resolves aiosqlite and raises NameError, so the
declared SELECT (the `get` model above) is unreachable. -/
def get_run (tbl : List Row) (dataType : String) : PyOutcome (Option MarketData) :=
  match aiosqliteCall with
  | .returns _ => .returns (get tbl dataType)
  | .raisesNameError => .raisesNameError

end DataCache

/-- The two operations a caller can issue against the cache: set (with
the ttl_hours argument the code accepts) and get.  get performs only a
SELECT and leaves the table unchanged. -/
inductive CacheOp where
  | setOp (dataType : String) (m : MarketData) (ttlHours : Nat)
  | getOp (dataType : String)
deriving DecidableEq

def applyOp (tbl : List Row) : CacheOp → List Row
  | .setOp dataType m ttl => DataCache.set tbl dataType m ttl
  | .getOp _ => tbl

def applyOps (tbl : List Row) (ops : List CacheOp) : List Row :=
  ops.foldl applyOp tbl

/-- Whether an operation writes the given composite key. -/
def opWritesKey (op : CacheOp) (dataType ts : String) : Bool :=
  match op with
  | .setOp dataType2 m _ => dataType2 == dataType && m.timestamp == ts
  | .getOp _ => false

/-- Replace an operation's TTL argument by zero (the identity on get). -/
def zeroTtl : CacheOp → CacheOp
  | .setOp dataType m _ => .setOp dataType m 0
  | .getOp dataType => .getOp dataType

/-- One cache operation as the program executes it: both set and get
raise NameError at their first statement. -/
def applyOp_run (tbl : List Row) : CacheOp → PyOutcome (List Row)
  | .setOp dataType m ttl => DataCache.set_run tbl dataType m ttl
  | .getOp dataType =>
    match DataCache.get_run tbl dataType with
    | .returns _ => .returns tbl
    | .raisesNameError => .raisesNameError

/-- A sequence of cache operations as executed: stop at the first
raised exception (none of the call sites catches NameError around an
individual cache call in a way that would continue the sequence). -/
def applyOps_run (tbl : List Row) : List CacheOp → PyOutcome (List Row)
  | [] => .returns tbl
  | op :: rest =>
    match applyOp_run tbl op with
    | .returns tbl2 => applyOps_run tbl2 rest
    | .raisesNameError => .raisesNameError

end Portfolio

namespace Portfolio

/-! ## Theorems for the fetch layer -/

/-- C1: the claim says a permanently-transient source makes the fetcher
perform exactly RETRY_ATTEMPTS = 3 attempts with backoff before failing.
In the code, fetch_url's own try block catches aiohttp.ClientError and
returns None, so the backoff decorator — whose max_tries=RETRY_ATTEMPTS
declares the 3-attempt intent — never observes an exception: on a source
that raises aiohttp.ClientError on every attempt, exactly one attempt is
made and None is returned. -/
theorem fetch_url_single_attempt_on_transient :
    fetch_url (fun _ => HttpOutcome.clientError) = (PyResult.ok none, 1) := rfl

/-- fetch_url is fetch_url_rl with every rate-limit slot free. -/
theorem fetch_url_rl_all_slots_free (oracle : Nat → HttpOutcome) :
    fetch_url_rl (fun _ => true) oracle = fetch_url oracle := rfl

/-- Counterexample to C2 as stated: a call made while the per-period
call budget of ratelimit.limits(calls=1, period=2) is exhausted — e.g.
the second of update_currency's back-to-back fetches — raises
RateLimitException; backoff retries only aiohttp.ClientError and passes
it through, so a raw exception reaches the caller even though the HTTP
request itself would have succeeded. -/
theorem fetch_url_rl_rate_limit_raises :
    fetch_url_rl (fun _ => false) (fun _ => HttpOutcome.success ("body")) =
      (PyResult.raisedRateLimit, 1) := rfl

/-- C2, amended: when the rate limiter grants the call a slot, every
behaviour of the underlying HTTP request — success, client error
(covering non-retriable 4xx raised by raise_for_status), timeout, or
any other exception — makes fetch_url return normally, with None on
every failure outcome and no exception propagating (the three except
clauses are exhaustive); but a call arriving when the rate ceiling is
exhausted raises RateLimitException uncaught to the caller, since
ratelimit.limits defaults to raising and backoff does not retry it. -/
theorem fetch_url_rl_spec (slotFree : Nat → Bool) (oracle : Nat → HttpOutcome) :
    (slotFree 0 = true →
      fetch_url_rl slotFree oracle =
        (PyResult.ok (match oracle 0 with
          | HttpOutcome.success b => some b
          | _ => none), 1)) ∧
    (slotFree 0 = false →
      fetch_url_rl slotFree oracle = (PyResult.raisedRateLimit, 1)) := by
  constructor
  · intro hslot
    cases h : oracle 0 <;>
      simp [fetch_url_rl, Config.RETRY_ATTEMPTS, backoffRun, ratelimit_limits,
        fetch_url_body, hslot, h]
  · intro hslot
    simp [fetch_url_rl, Config.RETRY_ATTEMPTS, backoffRun, ratelimit_limits, hslot]

/-- Witness for the amended C2: a slot-granted call whose request times
out returns None without raising. -/
theorem fetch_url_rl_spec_witness :
    fetch_url_rl (fun _ => true) (fun _ => HttpOutcome.timeout) = (PyResult.ok none, 1) :=
  (fetch_url_rl_spec (fun _ => true) (fun _ => HttpOutcome.timeout)).1 rfl

/-! ## Theorems for the cache upsert -/

/-- C4: the claim matches the upsert contract the code itself declares —
the SQL at lines 143-148 with UNIQUE(data_type, timestamp) ON CONFLICT
REPLACE is idempotent (second conjunct: performing the declared write
twice equals performing it once) — but the executed method never
reaches it: because aiosqlite is never imported, every call to
DataCache.set raises NameError at its first statement (first conjunct),
so the program's upsert inserts or replaces nothing. -/
theorem DataCache.set_raises_before_upsert (tbl : List Row) (dataType : String)
    (m : MarketData) (t1 t2 : Nat) :
    DataCache.set_run tbl dataType m t1 = PyOutcome.raisesNameError ∧
    DataCache.set (DataCache.set tbl dataType m t1) dataType m t2 =
      DataCache.set tbl dataType m t1 := by
  constructor
  · rfl
  · simp [DataCache.set, List.filter_append, List.filter_filter]

/-! ## Theorems for the cache frame property (C9) -/

theorem mem_applyOps_of_no_write (ops : List CacheOp) :
    ∀ (tbl : List Row) (r : Row), r ∈ tbl →
      (∀ op ∈ ops, opWritesKey op r.dataType r.timestamp = false) →
      r ∈ applyOps tbl ops := by
  induction ops with
  | nil =>
    intro tbl r hr _
    simpa [applyOps] using hr
  | cons op rest ih =>
    intro tbl r hr h
    have hop := h op (List.mem_cons_self _ _)
    have hrest : ∀ op2 ∈ rest, opWritesKey op2 r.dataType r.timestamp = false :=
      fun op2 h2 => h op2 (List.mem_cons_of_mem _ h2)
    have hstep : r ∈ applyOp tbl op := by
      cases op with
      | getOp dataType => simpa [applyOp] using hr
      | setOp dataType m ttl =>
        simp only [applyOp, DataCache.set]
        refine List.mem_append_left _ ?_
        refine List.mem_filter.2 ⟨hr, ?_⟩
        simp only [opWritesKey, Bool.and_eq_false_iff, beq_eq_false_iff_ne, ne_eq] at hop
        simp only [Bool.not_eq_eq_eq_not, Bool.not_true, Bool.and_eq_false_iff,
          beq_eq_false_iff_ne, ne_eq]
        tauto
    have : applyOps tbl (op :: rest) = applyOps (applyOp tbl op) rest := by
      simp [applyOps]
    rw [this]
    exact ih (applyOp tbl op) r hstep hrest

theorem applyOps_zeroTtl (ops : List CacheOp) :
    ∀ tbl : List Row, applyOps tbl ops = applyOps tbl (ops.map zeroTtl) := by
  induction ops with
  | nil => intro tbl; rfl
  | cons op rest ih =>
    intro tbl
    have hop : applyOp tbl (zeroTtl op) = applyOp tbl op := by
      cases op <;> rfl
    have h1 : applyOps tbl (op :: rest) = applyOps (applyOp tbl op) rest := by
      simp [applyOps]
    have h2 : applyOps tbl ((op :: rest).map zeroTtl) =
        applyOps (applyOp tbl (zeroTtl op)) (rest.map zeroTtl) := by
      simp [applyOps]
    rw [h1, h2, hop, ih]

/-- C9: the frame property the claim states is true of the SQL the code
declares — erasing every TTL argument leaves the declared final state
unchanged, and a row whose key no operation writes survives the
declared operation sequence (second and third conjuncts) — but the
program never executes that semantics: any non-empty sequence of cache
operations raises NameError on its very first operation (first
conjunct), because aiosqlite is never imported, so no upsert ever
inserts or replaces anything and no state is ever mutated. -/
theorem cache_ops_raise_before_any_write (tbl : List Row) (ops : List CacheOp) :
    (ops ≠ [] → applyOps_run tbl ops = PyOutcome.raisesNameError) ∧
    applyOps tbl ops = applyOps tbl (ops.map zeroTtl) ∧
    (∀ r ∈ tbl, (∀ op ∈ ops, opWritesKey op r.dataType r.timestamp = false) →
       r ∈ applyOps tbl ops) := by
  refine ⟨?_, applyOps_zeroTtl ops tbl, fun r hr h => mem_applyOps_of_no_write ops tbl r hr h⟩
  intro hne
  cases ops with
  | nil => exact absurd rfl hne
  | cons op rest => cases op <;> rfl

def c9Row : Row :=
  { dataType := "Gold", timestamp := "2025-01-01T00:00:00"
    data := { timestamp := "2025-01-01T00:00:00", value := 1, source := "GoldAPI.io", metadata := [] } }

def c9Ops : List CacheOp :=
  [CacheOp.setOp ("Nifty") { timestamp := "2025-01-02T00:00:00", value := 2, source := "Financial Modeling Prep", metadata := none } 24,
   CacheOp.getOp ("Gold")]

/-- Witness for C9: a concrete non-empty operation sequence against a
one-row cache raises NameError on its first operation. -/
theorem cache_ops_raise_before_any_write_witness :
    applyOps_run [c9Row] c9Ops = PyOutcome.raisesNameError :=
  (cache_ops_raise_before_any_write [c9Row] c9Ops).1 (by decide)

/-! ## Theorems for the cache round trip (C10) -/

/-- C10: the store-then-read round trip the claim describes (including
to_dict materializing an absent metadata as an empty mapping) is the
code's declared serialization contract, but the program can never
perform it: both DataCache.set and DataCache.get raise NameError at
their first statement (aiosqlite is never imported), so no observation
is ever stored and latest never returns a row. -/
theorem cache_roundtrip_unreachable (tbl : List Row) (dataType : String)
    (m : MarketData) (ttl : Nat) (dataType2 : String) :
    DataCache.set_run tbl dataType m ttl = PyOutcome.raisesNameError ∧
    DataCache.get_run tbl dataType2 = PyOutcome.raisesNameError ∧
    (MarketData.to_dict ⟨m.timestamp, m.value, m.source, none⟩).metadata = [] :=
  ⟨rfl, rfl, rfl⟩

/-! ## Fallback resolution (`DataUpdater.update_nifty`, nav_update_scheduler.py
lines 350-440)

update_nifty tries three sources in a fixed order: Financial Modeling
Prep, then Twelve Data, then Polygon.io.  Each attempt is guarded by the
presence of the source's API key (not equal to the unset sentinel) and —
for the second and third attempts — by `price is None`.  Every exception
inside an attempt block is caught there and leaves price as it was, so
an attempt's entire effect is summarized by an optional price. -/

/-- One configured source of the Nifty fallback chain: whether its API
key is present (set and different from the sentinel), and the price the
attempt block would assign if contacted (none when the fetch, the JSON
decode, or the field extraction fails). -/
structure SourceCfg where
  keySet : Bool
  result : Option Rat
deriving DecidableEq

def sourceSucceeds (s : SourceCfg) : Bool := s.keySet && s.result.isSome

/-- Which sources a resolution run contacted, and the resulting price. -/
structure NiftyTrace where
  price : Option Rat
  fmpTried : Bool
  tdTried : Bool
  polyTried : Bool
deriving DecidableEq

/-- The fallback chain of update_nifty (lines 356-440): price starts as
None; attempt 1 runs whenever the FMP key is set; attempts 2 and 3 run
only while price is still None and their own key is set; the function
fails (returns False at line 440) exactly when price is still None after
all three attempts. -/
def update_nifty_resolve (fmp td poly : SourceCfg) : NiftyTrace :=
  let p1 : Option Rat := if fmp.keySet then fmp.result else none
  let c1 : Bool := fmp.keySet
  let c2 : Bool := p1.isNone && td.keySet
  let p2 : Option Rat := if p1.isNone && td.keySet then td.result else p1
  let c3 : Bool := p2.isNone && poly.keySet
  let p3 : Option Rat := if p2.isNone && poly.keySet then poly.result else p2
  { price := p3, fmpTried := c1, tdTried := c2, polyTried := c3 }

/-- C3: sources are consulted strictly in configured order with first
success winning: if FMP succeeds neither Twelve Data nor Polygon.io is
contacted and its value is returned; if Twelve Data succeeds Polygon.io
is not contacted; the returned price is that of the first succeeding
source; resolution fails exactly when every configured source failed
(a source whose key is absent cannot succeed), in which case every
key-enabled source was contacted. -/
theorem update_nifty_fallback_order (fmp td poly : SourceCfg) :
    (sourceSucceeds fmp = true →
      (update_nifty_resolve fmp td poly).tdTried = false ∧
      (update_nifty_resolve fmp td poly).polyTried = false ∧
      (update_nifty_resolve fmp td poly).price = fmp.result) ∧
    (sourceSucceeds td = true → (update_nifty_resolve fmp td poly).polyTried = false) ∧
    (sourceSucceeds fmp = false → sourceSucceeds td = true →
      (update_nifty_resolve fmp td poly).price = td.result) ∧
    (sourceSucceeds fmp = false → sourceSucceeds td = false → sourceSucceeds poly = true →
      (update_nifty_resolve fmp td poly).price = poly.result) ∧
    ((update_nifty_resolve fmp td poly).price = none ↔
      sourceSucceeds fmp = false ∧ sourceSucceeds td = false ∧ sourceSucceeds poly = false) ∧
    ((update_nifty_resolve fmp td poly).price = none →
      (update_nifty_resolve fmp td poly).fmpTried = fmp.keySet ∧
      (update_nifty_resolve fmp td poly).tdTried = td.keySet ∧
      (update_nifty_resolve fmp td poly).polyTried = poly.keySet) := by
  obtain ⟨kf, rf⟩ := fmp
  obtain ⟨kt, rt⟩ := td
  obtain ⟨kp, rp⟩ := poly
  cases kf <;> cases kt <;> cases kp <;> cases rf <;> cases rt <;> cases rp <;>
    simp [update_nifty_resolve, sourceSucceeds]

/-- Witness for C3 at concrete sources: with the first source failing
(key present but its fetch failing) and the second succeeding, the
second source's value is returned and the third source is not
contacted. -/
theorem update_nifty_fallback_order_witness :
    (update_nifty_resolve { keySet := true, result := none }
        { keySet := true, result := some 25000 }
        { keySet := true, result := some 24000 }).polyTried = false ∧
    (update_nifty_resolve { keySet := true, result := none }
        { keySet := true, result := some 25000 }
        { keySet := true, result := some 24000 }).price = some 25000 := by
  refine ⟨(update_nifty_fallback_order _ _ _).2.1 (by rfl), ?_⟩
  exact (update_nifty_fallback_order
    { keySet := true, result := none }
    { keySet := true, result := some 25000 }
    { keySet := true, result := some 24000 }).2.2.1 (by rfl) (by rfl)

/-! ## The orchestrator (`main`, nav_update_scheduler.py lines 733-780)
and credential gating (`DataUpdater.update_gold` lines 474-479)

main's executed control flow: return False before anything else if the
GOOGLE_SERVICE_ACCOUNT_KEY environment variable is unset (lines
736-739) or GoogleSheetsManager authorization raises (lines 741-745);
then `await cache.initialize_db()` at line 749, outside any try block
and before the DataFetcher or any task exists.  That await resolves the
name aiosqlite (line 123) and raises NameError, so on every
credentialed run main raises before the gather at line 766; the
gather/aggregate stage (modelled in the completed branch below) is
unreachable.  update_gold's own guard (line 477) would fail only the
Gold series, with no fetch, were a run ever to reach the tasks. -/

def GOLDAPI_SENTINEL : String := "YOUR_GOLDAPI_API_KEY"

/-- The guard of update_gold (line 477): `not key or key == sentinel`
(os.getenv leaves the sentinel default when the variable is unset, and
an empty string is falsy). -/
def goldKeyMissing (k : String) : Bool := (k == "") || (k == GOLDAPI_SENTINEL)

/-- update_gold: if the key is missing, fail at once with no fetch;
otherwise run the body (abstracted as its result and fetch count, the
first fetch being issued immediately after the guard). -/
def update_gold (goldKey : String) (body : Bool × Nat) : Bool × Nat :=
  if goldKeyMissing goldKey then (false, 0) else body

/-- Summary of the gather stage main would run: the per-series results
collected by asyncio.gather(..., return_exceptions=True), the aggregate
of line 769, and the total number of fetches issued. -/
structure RunReport where
  results : List Bool
  aggregate : Bool
  fetches : Nat
deriving DecidableEq

/-- Outcome of one invocation of main: an early False return before the
cache/fetch stage, an uncaught exception escaping main, or a completed
gather with its report. -/
inductive RunOutcome where
  | aborted
  | raisedNameError
  | completed (report : RunReport)
deriving DecidableEq

/-- main as the program executes it (lines 733-780): abort on a missing
sink credential or failed authorization; then await
cache.initialize_db() (line 749, unguarded), which raises NameError
since aiosqlite is never imported; only if that name resolved would the
five updaters (Nifty, Gold, currency, NAV, FRED) be gathered and
aggregated. -/
def mainRun_exec (sinkCred : Option String) (authOk : Bool)
    (nifty : Bool × Nat) (goldKey : String) (goldBody : Bool × Nat)
    (currency nav fred : Bool × Nat) : RunOutcome :=
  match sinkCred with
  | none => .aborted
  | some _ =>
    if authOk then
      match aiosqliteCall with
      | .raisesNameError => .raisedNameError
      | .returns _ =>
        let gold := update_gold goldKey goldBody
        let rs := [nifty, gold, currency, nav, fred]
        .completed
          { results := rs.map Prod.fst
            aggregate := (rs.map Prod.fst).all fun b => b
            fetches := (rs.map Prod.snd).foldl (· + ·) 0 }
    else .aborted

/-- C5: the claim says the run waits for every series, isolates
failures, aggregates, and never raises — the contract of the gather at
lines 766-769 — but the program never gets there: every run with the
sink credential present and authorization succeeding raises NameError
at line 749 (`await cache.initialize_db()`, unguarded, aiosqlite never
imported) before the fetcher or any series task exists, so the run
itself raises and produces no per-series outcome at all. -/
theorem main_raises_before_gather (cred : String) (nifty : Bool × Nat)
    (goldKey : String) (goldBody currency nav fred : Bool × Nat) :
    mainRun_exec (some cred) true nifty goldKey goldBody currency nav fred =
      RunOutcome.raisedNameError := rfl

/-- C6: the first half of the claim holds — with the sink credential
absent the run aborts at once, before the cache, the fetcher or any
task exists, so no fetch is ever issued (first conjunct) — but the
second half does not: with the sink credential present and a per-series
(Gold) key absent, the run raises NameError at line 749 before any
series starts (second conjunct), so the other series never proceed;
update_gold's guard, which would fail only the Gold series with zero
fetches (third conjunct), is unreachable in a run. -/
theorem credential_gating_exec (authOk : Bool) (nifty : Bool × Nat) (goldKey : String)
    (goldBody : Bool × Nat) (currency nav fred : Bool × Nat) :
    mainRun_exec none authOk nifty goldKey goldBody currency nav fred =
      RunOutcome.aborted ∧
    (∀ cred : String, goldKeyMissing goldKey = true →
      mainRun_exec (some cred) true nifty goldKey goldBody currency nav fred =
        RunOutcome.raisedNameError) ∧
    (goldKeyMissing goldKey = true → update_gold goldKey goldBody = (false, 0)) := by
  refine ⟨rfl, fun cred _ => rfl, fun hmiss => ?_⟩
  simp [update_gold, hmiss]

/-- A concrete sink credential for the C6 witness. -/
def c6SinkCred : String := "service-account-json-blob"

/-- Witness for C6: with the sink credential present and the Gold key
left at its unset sentinel, the concrete run raises NameError (the
sibling series do not proceed), while the guard alone would have
returned false with zero fetches. -/
theorem credential_gating_exec_witness :
    mainRun_exec (some c6SinkCred) true (true, 3) GOLDAPI_SENTINEL (true, 1)
        (true, 3) (true, 1) (true, 1) = RunOutcome.raisedNameError ∧
    update_gold GOLDAPI_SENTINEL (true, 1) = (false, 0) :=
  ⟨(credential_gating_exec true (true, 3) GOLDAPI_SENTINEL (true, 1)
      (true, 3) (true, 1) (true, 1)).2.1 c6SinkCred (by decide),
   (credential_gating_exec true (true, 3) GOLDAPI_SENTINEL (true, 1)
      (true, 3) (true, 1) (true, 1)).2.2 (by decide)⟩

/-! ## CSV merge (`DataUpdater._safe_merge_csv`, nav_update_scheduler.py
lines 313-348)

A data-frame row is modelled by the tuple of its key-column values (in
the key_cols order, so the date column — key_cols[0] — is the head) plus
its remaining column values.  pd.to_datetime with a fixed format and
errors="coerce" is an oracle parseDate from the date string to an
optional sortable value (none modelling NaT, which dropna removes).  A
file that exists but is unreadable or empty is read as an empty row list
(the except clauses at lines 323-328); a file that does not exist takes
the else branch at line 343, which writes new_df unchanged. -/

structure CsvRow where
  keyVals : List String
  rest : List String
deriving DecidableEq

/-- The date column is key_cols[0] (line 336). -/
def rowDate (r : CsvRow) : String := r.keyVals.headD ("")

/-- pandas drop_duplicates(subset=key_cols, keep="last") (line 331):
a row is kept at its position iff no later row carries the same key. -/
def drop_duplicates_keep_last : List CsvRow → List CsvRow
  | [] => []
  | r :: rs =>
    if rs.any (fun s => s.keyVals == r.keyVals) then drop_duplicates_keep_last rs
    else r :: drop_duplicates_keep_last rs

/-- The dropna(subset=["_sort_date"]) predicate (line 337): the row's
date parsed successfully. -/
def dateKeeps (parseDate : String → Option Nat) (r : CsvRow) : Bool :=
  (parseDate (rowDate r)).isSome

/-- The sort_values("_sort_date") order (line 338): ascending by parsed
date (rows reaching the sort all parsed successfully). -/
def dateLe (parseDate : String → Option Nat) (a b : CsvRow) : Prop :=
  (parseDate (rowDate a)).getD 0 ≤ (parseDate (rowDate b)).getD 0

instance (parseDate : String → Option Nat) : DecidableRel (dateLe parseDate) :=
  fun _ _ => Nat.decLe _ _

instance (parseDate : String → Option Nat) : IsTotal CsvRow (dateLe parseDate) :=
  ⟨fun _ _ => Nat.le_total _ _⟩

instance (parseDate : String → Option Nat) : IsTrans CsvRow (dateLe parseDate) :=
  ⟨fun _ _ _ => Nat.le_trans⟩

/-- DataUpdater._safe_merge_csv.  existing = none: the file does not
exist and new_df is written as-is (line 343).  existing = some rows:
concatenate, deduplicate keeping the last row per key, and — when a
date format was supplied — drop rows whose date fails to parse and sort
ascending by parsed date (lines 330-340). -/
def _safe_merge_csv (existing : Option (List CsvRow)) (newRows : List CsvRow)
    (parseDate : String → Option Nat) (hasDateFmt : Bool) : List CsvRow :=
  match existing with
  | some existingRows =>
    let combined := existingRows ++ newRows
    let deduped := drop_duplicates_keep_last combined
    if hasDateFmt then
      List.insertionSort (dateLe parseDate) (deduped.filter (dateKeeps parseDate))
    else deduped
  | none => newRows

theorem countP_filter_le {α : Type} (p q : α → Bool) (l : List α) :
    (l.filter q).countP p ≤ l.countP p := by
  induction l with
  | nil => simp
  | cons a t ih =>
    by_cases hq : q a
    · simp only [List.filter_cons, hq, if_true, List.countP_cons]
      omega
    · simp only [List.filter_cons, hq, Bool.false_eq_true, if_false, List.countP_cons]
      omega

theorem mem_drop_duplicates_keep_last (x : CsvRow) :
    ∀ l : List CsvRow, x ∈ drop_duplicates_keep_last l → x ∈ l := by
  intro l
  induction l with
  | nil => intro h; simpa [drop_duplicates_keep_last] using h
  | cons r rs ih =>
    intro h
    by_cases hd : rs.any (fun s => s.keyVals == r.keyVals) = true
    · rw [drop_duplicates_keep_last, if_pos hd] at h
      exact List.mem_cons_of_mem _ (ih h)
    · rw [drop_duplicates_keep_last, if_neg hd] at h
      rcases List.mem_cons.1 h with h1 | h2
      · exact h1 ▸ List.mem_cons_self _ _
      · exact List.mem_cons_of_mem _ (ih h2)

theorem drop_duplicates_keep_last_countP (k : List String) :
    ∀ l : List CsvRow,
      (drop_duplicates_keep_last l).countP (fun s => s.keyVals == k) ≤ 1 := by
  intro l
  induction l with
  | nil => simp [drop_duplicates_keep_last]
  | cons r rs ih =>
    by_cases hd : rs.any (fun s => s.keyVals == r.keyVals) = true
    · rw [drop_duplicates_keep_last, if_pos hd]
      exact ih
    · rw [drop_duplicates_keep_last, if_neg hd]
      rw [List.countP_cons]
      by_cases hk : (r.keyVals == k) = true
      · have hkey : r.keyVals = k := by simpa using hk
        have hzero : (drop_duplicates_keep_last rs).countP (fun s => s.keyVals == k) = 0 := by
          rw [List.countP_eq_zero]
          intro s hs
          have hsrs := mem_drop_duplicates_keep_last s rs hs
          have hnot : ∀ s2 ∈ rs, ¬((fun s3 => s3.keyVals == r.keyVals) s2 = true) := by
            simpa [List.any_eq_true] using hd
          have hcontra := hnot s hsrs
          rw [hkey] at hcontra
          simpa using hcontra
        rw [hzero, if_pos hk]
      · rw [if_neg hk]
        omega

theorem drop_duplicates_keep_last_find (x : CsvRow) :
    ∀ l : List CsvRow, x ∈ drop_duplicates_keep_last l →
      l.reverse.find? (fun s => s.keyVals == x.keyVals) = some x := by
  intro l
  induction l with
  | nil => intro h; simp [drop_duplicates_keep_last] at h
  | cons r rs ih =>
    intro h
    rw [List.reverse_cons, List.find?_append]
    by_cases hd : rs.any (fun s => s.keyVals == r.keyVals) = true
    · rw [drop_duplicates_keep_last, if_pos hd] at h
      rw [ih h]
      rfl
    · rw [drop_duplicates_keep_last, if_neg hd] at h
      rcases List.mem_cons.1 h with h1 | h2
      · subst h1
        have hnone : rs.reverse.find? (fun s => s.keyVals == x.keyVals) = none := by
          rw [List.find?_eq_none]
          intro s hs
          have hnot : ∀ s2 ∈ rs, ¬((fun s3 => s3.keyVals == x.keyVals) s2 = true) := by
            simpa [List.any_eq_true] using hd
          exact hnot s (List.mem_reverse.1 hs)
        rw [hnone]
        simp
      · rw [ih h2]
        rfl

/-- C7, amended: whenever the existing file is present (its contents
possibly empty, as an unreadable or corrupt file is read), merging with
a date format yields an output with at most one row per key, each output
row being the most recently supplied row of its key, no row whose date
fails to parse, and the rows sorted ascending by parsed date.  (When the
file does not exist the new rows are written unchanged, without
deduplication, date filtering, or sorting — see the counterexample.) -/
theorem safe_merge_csv_contract (ex newRows : List CsvRow)
    (parseDate : String → Option Nat) :
    (∀ k : List String,
      ((_safe_merge_csv (some ex) newRows parseDate true).countP
        fun r => r.keyVals == k) ≤ 1) ∧
    (∀ r ∈ _safe_merge_csv (some ex) newRows parseDate true,
      ((ex ++ newRows).reverse.find? fun s => s.keyVals == r.keyVals) = some r) ∧
    (∀ r ∈ _safe_merge_csv (some ex) newRows parseDate true,
      (parseDate (rowDate r)).isSome = true) ∧
    List.Sorted (dateLe parseDate) (_safe_merge_csv (some ex) newRows parseDate true) := by
  have hmerge : _safe_merge_csv (some ex) newRows parseDate true =
      List.insertionSort (dateLe parseDate)
        ((drop_duplicates_keep_last (ex ++ newRows)).filter (dateKeeps parseDate)) := rfl
  have hperm := List.perm_insertionSort (dateLe parseDate)
    ((drop_duplicates_keep_last (ex ++ newRows)).filter (dateKeeps parseDate))
  refine ⟨?_, ?_, ?_, ?_⟩
  · intro k
    rw [hmerge, hperm.countP_eq]
    exact Nat.le_trans
      (countP_filter_le (fun r => r.keyVals == k) (dateKeeps parseDate) _)
      (drop_duplicates_keep_last_countP k (ex ++ newRows))
  · intro r hr
    rw [hmerge] at hr
    have hr2 := hperm.mem_iff.1 hr
    exact drop_duplicates_keep_last_find r (ex ++ newRows) (List.mem_filter.1 hr2).1
  · intro r hr
    rw [hmerge] at hr
    have hr2 := hperm.mem_iff.1 hr
    simpa [dateKeeps] using (List.mem_filter.1 hr2).2
  · rw [hmerge]
    exact List.sorted_insertionSort (dateLe parseDate) _

def c7r1 : CsvRow := { keyVals := ["2024-01-01", "FUNDX"], rest := ["1"] }

def c7r2 : CsvRow := { keyVals := ["2024-01-01", "FUNDX"], rest := ["2"] }

/-- Counterexample to C7 as stated: when the existing file does not
exist, the new rows are written back unchanged, so two new rows sharing
one key both survive — the merged output does not have at most one row
per key. -/
theorem safe_merge_csv_counterexample :
    ((_safe_merge_csv none [c7r1, c7r2] (fun _ => some 0) true).countP
      fun r => r.keyVals == ["2024-01-01", "FUNDX"]) = 2 := by decide

/-- Date oracle for the C7 witness: only "2024-01-01" parses. -/
def c7ParseDate (s : String) : Option Nat :=
  if s == "2024-01-01" then some 1 else none

/-- Witness for the amended C7: merging a one-row file with a
duplicate-key new row keeps the new row, whose date parses. -/
theorem safe_merge_csv_contract_witness :
    (c7ParseDate (rowDate c7r2)).isSome = true :=
  (safe_merge_csv_contract [c7r1] [c7r2] c7ParseDate).2.2.1 c7r2 (by decide)

/-! ## AMFI NAV bulk-file parsing (`DataUpdater.update_nav`,
nav_update_scheduler.py lines 596-678)

The raw body is processed character by character exactly as the Python
does: strip, split on newlines, locate the header line by its two
substring markers, split every later line on semicolons with per-field
stripping, keep rows whose field count matches the header, then convert
the NAV and Date columns.  pd.to_numeric(errors="coerce") and the
pd.to_datetime/strftime pair are oracles toNumeric and toDateFmt, with
none modelling NaN/NaT (dropped by the two dropna calls). -/

def pyWhitespace (c : Char) : Bool :=
  c = ' ' || c = '\t' || c = '\n' || c = '\r'

/-- str.strip: drop whitespace from both ends. -/
def trimChars (l : List Char) : List Char :=
  ((l.dropWhile pyWhitespace).reverse.dropWhile pyWhitespace).reverse

/-- str.split(sep) for a one-character separator. -/
def splitOnChar (c : Char) (l : List Char) : List (List Char) :=
  match l with
  | [] => [[]]
  | a :: rest =>
    match splitOnChar c rest with
    | [] => [[]]
    | g :: gs => if a = c then [] :: g :: gs else (a :: g) :: gs

/-- Python's `pat in line` substring test. -/
def containsSub (pat : List Char) : List Char → Bool
  | [] => pat.isEmpty
  | a :: rest => pat.isPrefixOf (a :: rest) || containsSub pat rest

/-- Line 615: "Scheme Code" in line and "Net Asset Value" in line. -/
def isHeaderLine (l : List Char) : Bool :=
  containsSub ("Scheme Code").data l && containsSub ("Net Asset Value").data l

/-- Lines 613-617: index of the first header-marker line. -/
def findHeaderIdx (lines : List (List Char)) : Option Nat :=
  lines.findIdx? isHeaderLine

/-- Lines 624 and 629: split a line on semicolons, strip each field,
and keep the non-empty fields. -/
def splitFields (l : List Char) : List String :=
  ((((splitOnChar ';' l).map trimChars).filter fun f => !f.isEmpty).map
    fun f => String.mk f)

/-- The df.rename mapping at lines 643-648, applied to header names. -/
def renameColumn (h : String) : String :=
  if h = "Scheme Code" then ("Fund Code")
  else if h = "Scheme Name" then ("Fund Name")
  else if h = "Net Asset Value" then ("NAV")
  else h

/-- dict lookup on the record built by dict(zip(header, parts)): for a
duplicated header name the last pair wins, as in a Python dict. -/
def dictGet (rec : List (String × String)) (k : String) : Option String :=
  (rec.reverse.find? fun p => p.fst == k).map Prod.snd

/-- One row of the final [Date, Fund Code, Fund Name, NAV] frame
(line 662). -/
structure NavRow where
  date : String
  fundCode : String
  fundName : String
  nav : Rat
deriving DecidableEq

/-- The row loop at lines 628-634: keep a line as a record exactly when
its stripped non-empty field count equals the header's. -/
def parseCompleteRecords (header : List String) (dataLines : List (List Char)) :
    List (List (String × String)) :=
  dataLines.filterMap fun line =>
    let parts := splitFields line
    if parts.length = header.length then some (header.zip parts) else none

/-- Lines 651-658: a record survives iff both its NAV converts to a
number and its Date parses (and is reformatted); otherwise the row is
dropped by the two dropna calls. -/
def convertRecord (toNumeric : String → Option Rat) (toDateFmt : String → Option String)
    (rec : List (String × String)) : Option NavRow :=
  match toNumeric ((dictGet rec ("NAV")).getD ("")), toDateFmt ((dictGet rec ("Date")).getD ("")) with
  | some nav, some d =>
    some { date := d, fundCode := (dictGet rec ("Fund Code")).getD ("")
           fundName := (dictGet rec ("Fund Name")).getD (""), nav := nav }
  | _, _ => none

def navLinesOf (body : String) : List (List Char) :=
  splitOnChar '\n' (trimChars body.data)

def headerOf (lines : List (List Char)) (i : Nat) : List String :=
  (splitFields (lines.getD i [])).map renameColumn

/-- The columns selected at line 662; their absence from the frame
raises a KeyError caught by the outer handler (return False). -/
def requiredColumns : List String := ["NAV", "Date", "Fund Code", "Fund Name"]

/-- The parsing stage of update_nav (lines 610-658): none models the
early `return False` paths (no header found at lines 619-621, zero
complete records at lines 636-638, missing selected column via the
outer exception handler); some rows is the converted frame. -/
def update_nav_parse (body : String) (toNumeric : String → Option Rat)
    (toDateFmt : String → Option String) : Option (List NavRow) :=
  let navLines := navLinesOf body
  match findHeaderIdx navLines with
  | none => none
  | some i =>
    let header := headerOf navLines i
    let records := parseCompleteRecords header (navLines.drop (i + 1))
    if records.isEmpty then none
    else if requiredColumns.all (fun c => header.contains c) then
      some (records.filterMap (convertRecord toNumeric toDateFmt))
    else none

/-- update_nav as the program executes it, end to end: a failed fetch
or a failed parse returns False; otherwise the rows are appended —
GoogleSheetsManager.append_data (lines 212-216) returns True at once on
an empty row list, and on a non-empty list succeeds or fails with the
sheet (abstracted as appendRowsOk) — and then, on every success path,
`await self.cache.set(...)` at line 671 raises NameError (aiosqlite is
never imported), which the outer `except Exception` at line 676 catches,
returning False.  A failed append skips the cache write and returns the
False it already has.  So update_nav returns False on every input. -/
def update_nav_run (fetched : Option String) (toNumeric : String → Option Rat)
    (toDateFmt : String → Option String) (appendRowsOk : Bool) : Bool :=
  match fetched with
  | none => false
  | some body =>
    match update_nav_parse body toNumeric toDateFmt with
    | none => false
    | some rows =>
      let success := if rows.isEmpty then true else appendRowsOk
      if success then
        match aiosqliteCall with
        | .returns _ => true
        | .raisesNameError => false
      else false

/-- A well-formed AMFI body with one fully usable row (correct field
count, convertible NAV, parseable date). -/
def amfiGoodBody : String :=
  "Scheme Code;ISIN Div Payout ISIN Growth;ISIN Div Reinvestment;Scheme Name;Net Asset Value;Date\n100001;INF100;INF101;Some Fund Growth;25;15-Aug-2025"

/-- pd.to_numeric oracle for the C8 instance: only "25" converts. -/
def goodNumOracle (s : String) : Option Rat :=
  if s == "25" then some 25 else none

/-- to_datetime/strftime oracle for the C8 instance: only "15-Aug-2025"
parses, reformatted to ISO. -/
def goodDateOracle (s : String) : Option String :=
  if s == "15-Aug-2025" then some ("2025-08-15") else none

/-- C8: the claim says Failure if and only if parsing yields zero
usable rows, and the parse stage is indeed tolerant as claimed — but
the executed update_nav returns False on every input whatsoever (first
conjunct), because each success path runs `await self.cache.set(...)`
(line 671), which raises NameError (aiosqlite never imported), caught
by the outer except into a False return.  In particular a body whose
parse yields a usable row (second conjunct) with a healthy sheet still
reports Failure, refuting the only-if direction. -/
theorem update_nav_always_failure :
    (∀ (fetched : Option String) (toNumeric : String → Option Rat)
       (toDateFmt : String → Option String) (appendRowsOk : Bool),
      update_nav_run fetched toNumeric toDateFmt appendRowsOk = false) ∧
    update_nav_parse amfiGoodBody goodNumOracle goodDateOracle =
      some [{ date := "2025-08-15", fundCode := "100001",
              fundName := "Some Fund Growth", nav := 25 }] := by
  constructor
  · intro fetched toNumeric toDateFmt appendRowsOk
    cases fetched with
    | none => rfl
    | some body =>
      show (match update_nav_parse body toNumeric toDateFmt with
        | none => false
        | some rows =>
          let success := if rows.isEmpty then true else appendRowsOk
          if success then
            match aiosqliteCall with
            | .returns _ => true
            | .raisesNameError => false
          else false) = false
      cases update_nav_parse body toNumeric toDateFmt with
      | none => rfl
      | some rows =>
        simp only [ite_self]
        exact ite_self false
  · decide

end Portfolio